import Mathlib

/-!
Shallow embedding of the checkout-orchestration core of the nekuda agent demo
frontend: the stage machine (useGlobalState), the wallet token store
(walletState), the error classifier (errorHandlers), the checkout entry
(useStageShopping.startCheckout), the payment-collection action
(useStageCollectPayment.collectPaymentInfo) and the purchase orchestrator
(useStageCompletePurchase.processPurchase).

Conventions of the embedding:
* JavaScript strings are Lean `String`, `null`/`undefined` string slots are
  `Option String`, and the JS truthiness fallback `a || b` on strings is
  `jsOrStr` / `jsGetStr` (the empty string is falsy).
* Network effects are made observable as an explicit list of `NetEvent`
  values produced by a run; the remote services are oracles passed in as
  plain data (`SubmitResponse`, `Nat → PollResponse`).
* Money amounts are modeled in integer cents (`Nat`); `Number.toFixed(2)`
  becomes `formatMoney`.  The 5-second inter-poll delay is kept as the
  constant `pollIntervalMs`; real time is not otherwise modeled.
-/

namespace Nekuda

/-- Checkout stages, from `useGlobalState` (`type Stage = "shopping" |
"collectPayment" | "completePurchase"`). -/
inductive Stage where
  | shopping
  | collectPayment
  | completePurchase
deriving DecidableEq, Repr

/-- One cart line as consumed by the orchestrator (`item.quantity`,
`item.name`; `price` in cents). -/
structure CartItem where
  name : String
  quantity : Nat
  price : Nat
deriving DecidableEq, Repr

/-- Error taxonomy of `errorHandlers.ts` (`PurchaseError.type`). -/
inductive ErrorType where
  | automation
  | payment
  | network
  | timeout
  | unknown
deriving DecidableEq, Repr

/-- `PurchaseError` record of `errorHandlers.ts`. -/
structure PurchaseError where
  type : ErrorType
  message : String
  details : String
  recoverable : Bool
deriving DecidableEq, Repr

/-- A raw failure value as inspected by `classifyError`: its `.message`
field, its `.error` field, and what JavaScript `String(error)` coercion
would yield. -/
structure RawError where
  message : Option String
  error : Option String
  coerced : String
deriving DecidableEq, Repr

/-- JS `a || b` where `a` is a nullable string slot and the whole result can
still be absent: `null`/`undefined` and `""` fall through. -/
def jsOrStr : Option String → Option String → Option String
  | none, b => b
  | some s, b => if s = "" then b else some s

/-- JS `a || b` where the fallback is a concrete string. -/
def jsGetStr : Option String → String → String
  | none, b => b
  | some s, b => if s = "" then b else s

/-- Prefix test on character lists (used to embed JS `String.includes`). -/
def isPrefixList : List Char → List Char → Bool
  | [], _ => true
  | _ :: _, [] => false
  | a :: as, b :: bs => a = b && isPrefixList as bs

/-- Infix test on character lists. -/
def isInfixList (p : List Char) : List Char → Bool
  | [] => isPrefixList p []
  | c :: cs => isPrefixList p (c :: cs) || isInfixList p cs

/-- JS `s.includes(pat)`. -/
def strIncludes (s pat : String) : Bool :=
  isInfixList pat.toList s.toList

/-- ASCII case folding of one character. -/
def lowerChar (c : Char) : Char :=
  if 65 ≤ c.toNat ∧ c.toNat ≤ 90 then Char.ofNat (c.toNat + 32) else c

/-- JS `s.toLowerCase()`.  Every keyword pattern and every message built by
this code is ASCII, where JS lower-casing is exactly ASCII case folding;
non-ASCII characters are left untouched. -/
def lowerString (s : String) : String := ⟨s.data.map lowerChar⟩

/-- Message extraction of `classifyError`:
`error?.message || error?.error || String(error)`. -/
def extractMessage (e : RawError) : String :=
  jsGetStr e.message (jsGetStr e.error e.coerced)

/-- `classifyError` from `errorHandlers.ts`: keyword classification of a raw
failure, in source order, every branch `recoverable: true`. -/
def classifyError (e : RawError) : PurchaseError :=
  let errorMessage := extractMessage e
  let lowerMessage := lowerString errorMessage
  if strIncludes lowerMessage "fetch" || strIncludes lowerMessage "network" ||
      strIncludes lowerMessage "connection" then
    { type := .network, message := "Cannot connect to checkout service",
      details := errorMessage, recoverable := true }
  else if strIncludes lowerMessage "automation" || strIncludes lowerMessage "browser" then
    { type := .automation, message := "Browser automation failed",
      details := errorMessage, recoverable := true }
  else if strIncludes lowerMessage "payment" || strIncludes lowerMessage "nekuda" ||
      strIncludes lowerMessage "sdk" then
    { type := .payment, message := "Payment processing failed",
      details := errorMessage, recoverable := true }
  else if strIncludes lowerMessage "timeout" then
    { type := .timeout, message := "Purchase timed out",
      details := errorMessage, recoverable := true }
  else
    { type := .unknown, message := "An unexpected error occurred",
      details := errorMessage, recoverable := true }

/-- `getErrorMessage` from `errorHandlers.ts`: user-facing remediation text
per error type. -/
def getErrorMessage (e : PurchaseError) : String :=
  match e.type with
  | .network =>
      "❌ Connection Error: " ++ e.message ++
      "\n\n🔧 Please ensure:\n• The checkout service is running on http://localhost:8001\n• Run: cd backend/checkout_service && python main.py\n• Check for any firewall or network issues\n\nYour cart has been preserved."
  | .automation =>
      "❌ Browser Automation Error: " ++ e.message ++
      "\n\n🔧 Troubleshooting:\n• Ensure the automation service is running\n• Check browser permissions\n• Try again in a few moments\n\nYour cart has been preserved."
  | .payment =>
      "❌ Payment Processing Error: " ++ e.message ++
      "\n\n💳 Please check:\n• Your nekuda SDK credentials\n• Payment method validity\n• Account balance\n\nYour cart has been preserved."
  | .timeout =>
      "⏱️ Purchase Timeout: " ++ e.message ++
      "\n\nThe purchase is taking longer than expected. \nYour cart has been preserved. Please try again later."
  | .unknown =>
      "❌ Purchase Failed: " ++ e.message ++
      "\n\n🔄 Your cart has been preserved. \nPlease try again or contact support if the issue persists."

/-- Validity check applied to a candidate token, as written in
`useStageShopping` (`existingToken && existingToken !== '' && existingToken
!== 'token_placeholder'`). -/
def hasValidToken : Option String → Bool
  | none => false
  | some s => if s = "" then false else if s = "token_placeholder" then false else true

/-- Negative form used in `useStageCompletePurchase` (`!token || token ===
'' || token === 'token_placeholder'`). -/
def tokenInvalid : Option String → Bool
  | none => true
  | some s => if s = "" then true else if s = "token_placeholder" then true else false

/-- Result payload of a completed purchase as read by the orchestrator
(only `result.store_order_id` is consumed). -/
structure OrderResult where
  store_order_id : Option String
deriving DecidableEq, Repr

/-- Session state visible to the checkout hooks: the stage machine and
last-result slots of `useGlobalState`, the session `paymentToken`, the
wallet-store slot (`walletState`), and the cart context. -/
structure SessionState where
  stage : Stage
  paymentToken : Option String
  walletToken : Option String
  cartItems : List CartItem
  total : Nat
  lastError : Option PurchaseError
  lastPurchaseResult : Option OrderResult
deriving DecidableEq, Repr

/-- One `GET /api/purchase-status/{id}` body as inspected by the poll loop:
`status` is compared against the literals `"completed"` / `"failed"`,
`message` is the advisory progress text, `error` and the generic object
coercion feed `classifyError` on the `failed` branch. -/
structure StatusData where
  status : String
  message : Option String
  error : Option String
  result : Option OrderResult
deriving DecidableEq, Repr

/-- Outcome of one status poll: a parsed body, or a non-2xx response
(`!statusResponse.ok`, which the handler turns into a thrown error). -/
inductive PollResponse where
  | ok (data : StatusData)
  | transportError
deriving DecidableEq, Repr

/-- Outcome of the `POST /api/browser-checkout` submission: a 2xx response
carrying `purchase_id`, a non-2xx response carrying the optional
`errorData.detail`, or a rejected fetch with the thrown message. -/
inductive SubmitResponse where
  | ok (purchaseId : String)
  | httpError (detail : Option String)
  | thrown (message : String)
deriving DecidableEq, Repr

/-- Observable network activity of one `processPurchase` run. -/
inductive NetEvent where
  | submitOrder
  | pollStatus (attempt : Nat)
deriving DecidableEq, Repr

/-- External world of one `processPurchase` run: submission outcome, the
status oracle (the k-th poll, 0-indexed, observes `polls k`), and the
`Date.now()`-derived fallback order id `NEKUDA-...`. -/
structure PurchaseInput where
  submit : SubmitResponse
  polls : Nat → PollResponse
  fallbackOrderId : String

/-- Structured form of the string a `processPurchase` run returns; rendered
to the literal source text by `renderReport`. -/
inductive Report where
  | emptyCart
  | missingPayment
  | success (updates : List String) (orderId : String) (userId : String)
      (total : Nat) (itemsSummary : String)
  | failedReport (updates : List String) (e : PurchaseError)
  | caught (e : PurchaseError)
deriving DecidableEq, Repr

/-- Terminal shape of the polling loop. -/
inductive LoopOutcome where
  | completedAt (attempt : Nat) (updates : List String) (data : StatusData)
  | failedAt (attempt : Nat) (updates : List String) (data : StatusData)
  | transportErrorAt (attempt : Nat) (updates : List String)
  | timedOut (attempts : Nat) (updates : List String)
deriving DecidableEq, Repr

/-- `maxAttempts = 120` of the poll loop. -/
def maxAttempts : Nat := 120

/-- The fixed 5000 ms inter-poll delay (`setTimeout(resolve, 5000)`). -/
def pollIntervalMs : Nat := 5000

/-- `fixedUserId` of the handler. -/
def fixedUserId : String := "test_user_123"

/-- `fixedMerchantName` of the handler. -/
def fixedMerchantName : String := "nekuda Store"

/-- First status-update entry pushed on submission success. -/
def initLine (purchaseId : String) : String :=
  "🔄 Purchase initiated with ID: " ++ purchaseId

/-- Entry pushed for a surfaced progress message. -/
def progressLine (m : String) : String := "📍 " ++ m

/-- Message of the error thrown when the poll ceiling is exhausted
(`maxAttempts * 5 / 60` evaluates to 10). -/
def timeoutMsg : String :=
  "Purchase timed out after " ++ toString (maxAttempts * 5 / 60) ++ " minutes"

/-- Message of the error thrown on a non-2xx status poll. -/
def transportErrMsg : String := "Error checking purchase status"

/-- A thrown `Error` object as seen by `classifyError` (`String(error)` on
an `Error` yields `"Error: " ++ message`; it is only consulted when
`message` is falsy). -/
def rawFromThrown (msg : String) : RawError :=
  { message := some msg, error := none, coerced := "Error: " ++ msg }

/-- A `failed` status body as seen by `classifyError(statusData)`
(`String(statusData)` on a plain object yields `"[object Object]"`). -/
def statusRaw (d : StatusData) : RawError :=
  { message := d.message, error := d.error, coerced := "[object Object]" }

/-- Lines 149-152 of the handler: surface `statusData.message` only when it
is truthy and differs from the last surfaced message. -/
def recordMessage (lastStatus : String) (updates : List String) :
    Option String → String × List String
  | none => (lastStatus, updates)
  | some m =>
      if m = "" then (lastStatus, updates)
      else if m = lastStatus then (lastStatus, updates)
      else (m, updates ++ [progressLine m])

/-- The `while (attempts < maxAttempts)` polling loop.  `fuel` is the number
of attempts still allowed, `attempts` the number already made, `lastStatus`
and `updates` the deduplication state, `evs` the network trace so far. -/
def pollLoop (polls : Nat → PollResponse) :
    Nat → Nat → String → List String → List NetEvent → LoopOutcome × List NetEvent
  | 0, attempts, _lastStatus, updates, evs => (.timedOut attempts updates, evs)
  | fuel + 1, attempts, lastStatus, updates, evs =>
      let attempt := attempts + 1
      let evs2 := evs ++ [NetEvent.pollStatus attempt]
      match polls attempts with
      | .transportError => (.transportErrorAt attempt updates, evs2)
      | .ok d =>
          let r := recordMessage lastStatus updates d.message
          if d.status = "completed" then (.completedAt attempt r.2 d, evs2)
          else if d.status = "failed" then (.failedAt attempt r.2 d, evs2)
          else pollLoop polls fuel attempt r.1 r.2 evs2

/-- Per-item summary string of the success report
(`cartItems.map(item => item.quantity + "x " + item.name).join(", ")`). -/
def itemsSummary (items : List CartItem) : String :=
  String.intercalate ", " (items.map (fun it => toString it.quantity ++ "x " ++ it.name))

/-- Shared tail of every `catch` return: classify the thrown message, store
it, reset the stage, and report only the classified error text. -/
def catchWith (st : SessionState) (msg : String) (evs : List NetEvent) :
    SessionState × Report × List NetEvent :=
  let e := classifyError (rawFromThrown msg)
  ({ st with lastError := some e, stage := .shopping }, .caught e, evs)

/-- The `processPurchase` handler of `useStageCompletePurchase`, as a pure
function of the session state and the external world. -/
def processPurchase (st : SessionState) (inp : PurchaseInput) :
    SessionState × Report × List NetEvent :=
  if st.cartItems.length = 0 then
    ({ st with stage := .shopping }, .emptyCart, [])
  else
    let token := jsOrStr st.paymentToken st.walletToken
    if tokenInvalid token then
      ({ st with stage := .collectPayment }, .missingPayment, [])
    else
      match inp.submit with
      | .thrown msg => catchWith st msg [NetEvent.submitOrder]
      | .httpError detail => catchWith st (jsGetStr detail "Checkout failed") [NetEvent.submitOrder]
      | .ok purchaseId =>
          match pollLoop inp.polls maxAttempts 0 "" [initLine purchaseId]
              [NetEvent.submitOrder] with
          | (.completedAt _ updates d, evs) =>
              let result := d.result.getD { store_order_id := none }
              let orderId := jsGetStr result.store_order_id inp.fallbackOrderId
              ({ st with cartItems := [], paymentToken := none, walletToken := none,
                         lastPurchaseResult := some result, stage := .shopping },
               .success updates orderId fixedUserId st.total (itemsSummary st.cartItems),
               evs)
          | (.failedAt _ updates d, evs) =>
              let e := classifyError (statusRaw d)
              ({ st with lastError := some e, stage := .shopping },
               .failedReport updates e, evs)
          | (.transportErrorAt _ _, evs) => catchWith st transportErrMsg evs
          | (.timedOut _ _, evs) => catchWith st timeoutMsg evs

/-- `Number.toFixed(2)` on an amount held in integer cents. -/
def formatMoney (cents : Nat) : String :=
  toString (cents / 100) ++ "." ++
    (if cents % 100 < 10 then "0" ++ toString (cents % 100) else toString (cents % 100))

/-- Closing line of the success report. -/
def clearedCartNotice : String :=
  "\n\nYour cart has been cleared. You can continue shopping!"

/-- Literal string returned by the handler for each `Report` shape. -/
def renderReport : Report → String
  | .emptyCart => "Cannot complete purchase - your cart is empty!"
  | .missingPayment => "Payment information is missing. Please provide payment details."
  | .success updates orderId userId total summary =>
      (if updates.length > 1 then String.intercalate "\n" updates ++ "\n\n" else "") ++
        "🎉 Purchase completed successfully!\n\n✅ Order ID: " ++ orderId ++
        "\n👤 User: " ++ userId ++ "\n💰 Total: $" ++ formatMoney total ++
        "\n📦 Items: " ++ summary ++ clearedCartNotice
  | .failedReport updates e =>
      (if updates.length > 0 then String.intercalate "\n" updates ++ "\n\n" else "") ++
        getErrorMessage e
  | .caught e => getErrorMessage e

/-- Structured form of the string `startCheckout` returns. -/
inductive CheckoutReport where
  | emptyCart
  | withPayment (count : Nat) (total : Nat)
  | needPayment (count : Nat) (total : Nat)
deriving DecidableEq, Repr

/-- The `startCheckout` handler of `useStageShopping`: guard on an empty
cart, then resolve `getWalletToken() || paymentToken` and branch on its
validity. -/
def startCheckout (st : SessionState) : SessionState × CheckoutReport :=
  if st.cartItems.length = 0 then (st, .emptyCart)
  else
    let existingToken := jsOrStr st.walletToken st.paymentToken
    if hasValidToken existingToken then
      ({ st with stage := .completePurchase }, .withPayment st.cartItems.length st.total)
    else
      ({ st with stage := .collectPayment }, .needPayment st.cartItems.length st.total)

/-- Visible outcome of one executing render of `collectPaymentInfo`: either
the already-on-file short-circuit, or the payment widget prompting entry. -/
inductive CollectOutcome where
  | alreadyExists
  | widgetShown
deriving DecidableEq, Repr

/-- Body of the `collectPaymentInfo` action of `useStageCollectPayment`:
when `getWalletToken() || paymentToken` is already valid, respond and move
to `completePurchase` without showing the widget; otherwise show the
widget and leave the state untouched until the user submits. -/
def collectPaymentInfo (st : SessionState) : SessionState × CollectOutcome :=
  let existingToken := jsOrStr st.walletToken st.paymentToken
  if hasValidToken existingToken then
    ({ st with stage := .completePurchase }, .alreadyExists)
  else
    (st, .widgetShown)

/-- The widget `onSuccess(cardTokenId)` callback: `saveWalletToken`,
`setPaymentToken`, then `setStage("completePurchase")`. -/
def walletOnSuccess (st : SessionState) (cardTokenId : String) : SessionState :=
  { st with walletToken := some cardTokenId, paymentToken := some cardTokenId,
            stage := .completePurchase }

/-- `collectPaymentInfo` as invoked through the stage gate: the action is
`enabled` only while the stage is `collectPayment`; otherwise the
invocation is a no-op producing no outcome. -/
def collectPaymentCommand (st : SessionState) : SessionState × Option CollectOutcome :=
  if st.stage = .collectPayment then
    let r := collectPaymentInfo st
    (r.1, some r.2)
  else (st, none)

/-- The candidate token the collection and checkout handlers resolve:
wallet slot first, session token as the falsy fallback. -/
def resolvedToken (st : SessionState) : Option String :=
  jsOrStr st.walletToken st.paymentToken

/-- Network-trace classifier for counting status polls. -/
def isPollEvent : NetEvent → Bool
  | .pollStatus _ => true
  | .submitOrder => false

/-- Trace left by `fuel` consecutive polls starting after `a` attempts. -/
def pollEvents : Nat → Nat → List NetEvent
  | _, 0 => []
  | a, fuel + 1 => NetEvent.pollStatus (a + 1) :: pollEvents (a + 1) fuel

/-- A poll answer that keeps the loop going: a 2xx body whose `status` is
neither terminal literal. -/
def nonTerminal (p : PollResponse) : Prop :=
  ∃ d, p = PollResponse.ok d ∧ d.status ≠ "completed" ∧ d.status ≠ "failed"

/-! Claim-side characterizations (worded from the specification, for
comparison against the embedded source functions). -/

/-- Keyword test of the first classifier priority class. -/
def netKw (m : String) : Bool :=
  strIncludes m "fetch" || strIncludes m "network" || strIncludes m "connection"

/-- Keyword test of the second classifier priority class. -/
def autoKw (m : String) : Bool :=
  strIncludes m "automation" || strIncludes m "browser"

/-- Keyword test of the third classifier priority class. -/
def payKw (m : String) : Bool :=
  strIncludes m "payment" || strIncludes m "nekuda" || strIncludes m "sdk"

/-- Keyword test of the fourth classifier priority class. -/
def toutKw (m : String) : Bool := strIncludes m "timeout"

/-- Priority-ordered type selection as the specification words it. -/
def classifiedType (e : RawError) : ErrorType :=
  let m := lowerString (extractMessage e)
  if netKw m then .network
  else if autoKw m then .automation
  else if payKw m then .payment
  else if toutKw m then .timeout
  else .unknown

/-- User-facing headline per error type. -/
def typeMessage : ErrorType → String
  | .network => "Cannot connect to checkout service"
  | .automation => "Browser automation failed"
  | .payment => "Payment processing failed"
  | .timeout => "Purchase timed out"
  | .unknown => "An unexpected error occurred"

/-- Updates list carried by a loop outcome. -/
def updatesOf : LoopOutcome → List String
  | .completedAt _ u _ => u
  | .failedAt _ u _ => u
  | .transportErrorAt _ u => u
  | .timedOut _ u => u

/-! Concrete fixtures used by witnesses and counterexamples. -/

def sampleCart : List CartItem :=
  [{ name := "Mechanical Keyboard", quantity := 1, price := 9999 },
   { name := "USB Cable", quantity := 2, price := 599 }]

def stBase : SessionState :=
  { stage := .completePurchase, paymentToken := some "card_tok_demo_123",
    walletToken := none, cartItems := sampleCart, total := 11197,
    lastError := none, lastPurchaseResult := none }

def stEmptyCart : SessionState := { stBase with cartItems := [], total := 0 }

def stNoToken : SessionState := { stBase with paymentToken := none }

def stShadow : SessionState :=
  { stage := .shopping, paymentToken := some "valid_session_tok_12345",
    walletToken := some "token_placeholder", cartItems := sampleCart,
    total := 11197, lastError := none, lastPurchaseResult := none }

def stShopper : SessionState := { stBase with stage := .shopping }

def stCollect : SessionState :=
  { stage := .collectPayment, paymentToken := none,
    walletToken := some "card_tok_demo_123", cartItems := sampleCart,
    total := 11197, lastError := none, lastPurchaseResult := none }

def pendingData : StatusData :=
  { status := "pending", message := none, error := none, result := none }

def pendingMsgData : StatusData :=
  { status := "pending", message := some "working on it", error := none, result := none }

def completedData : StatusData :=
  { status := "completed", message := some "done", error := none,
    result := some { store_order_id := some "ORD-77" } }

def failedData : StatusData :=
  { status := "failed", message := some "browser automation crashed",
    error := none, result := none }

def inpPending : PurchaseInput :=
  { submit := .ok "p1", polls := fun _ => .ok pendingData,
    fallbackOrderId := "NEKUDA-1700000000000" }

def inpPendingMsg : PurchaseInput :=
  { submit := .ok "p1", polls := fun _ => .ok pendingMsgData,
    fallbackOrderId := "NEKUDA-1700000000000" }

def inpCompleted : PurchaseInput :=
  { submit := .ok "p1", polls := fun _ => .ok completedData,
    fallbackOrderId := "NEKUDA-1700000000000" }

def inpFailed : PurchaseInput :=
  { submit := .ok "p1", polls := fun _ => .ok failedData,
    fallbackOrderId := "NEKUDA-1700000000000" }

/-! Supporting lemmas. -/

theorem length_pollEvents (a fuel : Nat) : (pollEvents a fuel).length = fuel := by
  induction fuel generalizing a with
  | zero => rfl
  | succ f ih => simp [pollEvents, ih]

theorem countP_pollEvents (a fuel : Nat) :
    (pollEvents a fuel).countP (fun e => isPollEvent e) = fuel := by
  induction fuel generalizing a with
  | zero => rfl
  | succ f ih =>
      rw [pollEvents, List.countP_cons, ih (a + 1)]
      simp [isPollEvent]

/-- Under an oracle that never answers a terminal status, the loop runs its
full fuel, times out, and polls exactly once per unit of fuel. -/
theorem pollLoop_nonTerminal (polls : Nat → PollResponse)
    (h : ∀ k, nonTerminal (polls k)) :
    ∀ fuel a last ups evs, ∃ ups2,
      pollLoop polls fuel a last ups evs =
        (LoopOutcome.timedOut (a + fuel) ups2, evs ++ pollEvents a fuel) := by
  intro fuel
  induction fuel with
  | zero => intro a last ups evs; exact ⟨ups, by simp [pollLoop, pollEvents]⟩
  | succ f ih =>
      intro a last ups evs
      obtain ⟨d, hd, hc, hf⟩ := h a
      obtain ⟨ups2, h2⟩ := ih (a + 1) (recordMessage last ups d.message).1
        (recordMessage last ups d.message).2 (evs ++ [NetEvent.pollStatus (a + 1)])
      refine ⟨ups2, ?_⟩
      simp only [pollLoop, hd, if_neg hc, if_neg hf, h2, pollEvents, Prod.mk.injEq]
      constructor
      · have ha : a + 1 + f = a + (f + 1) := by omega
        rw [ha]
      · simp

/-! Claim theorems. -/

/-- C5: `classifyError` is a total deterministic function: it extracts the
message via `.message`, else `.error`, else the string coercion, lower-cases
it, and selects the type by substring membership in priority order
(network, then automation, then payment, then timeout, else unknown),
always marking the result recoverable. -/
theorem classifyError_keyword_priority (e : RawError) :
    classifyError e =
      { type := classifiedType e, message := typeMessage (classifiedType e),
        details := extractMessage e, recoverable := true } := by
  simp only [classifyError, classifiedType, netKw, autoKw, payKw, toutKw]
  split_ifs <;> rfl

/-- C6 (counterexample): the gate predicate accepts `"abc123"`, a non-empty
non-sentinel string of length 6 < 10, so the claimed rejection of strings
shorter than 10 characters does not hold; the checkout gate consequently
proceeds past payment collection with it. -/
theorem tokenValidity_short_string_accepted :
    hasValidToken (some "abc123") = true ∧
    "abc123".length < 10 ∧
    tokenInvalid (some "abc123") = false ∧
    (startCheckout { stShopper with paymentToken := some "abc123" }).1.stage =
      Stage.completePurchase := by
  decide

/-- C6 (amended): the token-validity predicate gating checkout and payment
collection is false exactly for an absent token, the empty string, and the
sentinel `"token_placeholder"`, and true for every other string; it imposes
no minimum-length requirement.  `tokenInvalid` is its pointwise negation. -/
theorem tokenValidity_characterization :
    (∀ t, hasValidToken t = true ↔
      ∃ s, t = some s ∧ s ≠ "" ∧ s ≠ "token_placeholder") ∧
    (∀ t, tokenInvalid t = !hasValidToken t) := by
  constructor
  · intro t
    cases t with
    | none => simp [hasValidToken]
    | some s =>
        by_cases h1 : s = "" <;> by_cases h2 : s = "token_placeholder" <;>
          simp [hasValidToken, h1, h2]
  · intro t
    cases t with
    | none => rfl
    | some s =>
        by_cases h1 : s = "" <;> by_cases h2 : s = "token_placeholder" <;>
          simp [hasValidToken, tokenInvalid, h1, h2]

/-- C10: a status response whose `message` is absent or empty is never
surfaced (the deduplication state and the history are unchanged), and an
entry is appended to the history only for a non-empty message differing
from the last surfaced one. -/
theorem recordMessage_skips_empty (last : String) (ups : List String)
    (mo : Option String) (h : mo = none ∨ mo = some "") :
    recordMessage last ups mo = (last, ups) ∧
    ∀ m, (recordMessage last ups (some m)).2 ≠ ups →
      m ≠ "" ∧ m ≠ last ∧
      (recordMessage last ups (some m)).2 = ups ++ [progressLine m] := by
  constructor
  · rcases h with h | h <;> subst h <;> simp [recordMessage]
  · intro m hne
    by_cases h1 : m = ""
    · simp [recordMessage, h1] at hne
    · by_cases h2 : m = last
      · simp [recordMessage, h1, h2] at hne
      · exact ⟨h1, h2, by simp [recordMessage, h1, h2]⟩

/-- C10 (witness): concrete instance of `recordMessage_skips_empty`. -/
theorem recordMessage_skips_empty_witness :
    recordMessage "step one" [progressLine "step one"] (some "") =
      ("step one", [progressLine "step one"]) ∧
    ((some "" : Option String) = none ∨ (some "" : Option String) = some "") := by
  refine ⟨(recordMessage_skips_empty "step one" [progressLine "step one"]
    (some "") (Or.inr rfl)).1, Or.inr rfl⟩

/-- C4: the handler checks its preconditions before any network call: an
empty cart aborts to `shopping` with the empty-cart report and an empty
network trace; a non-empty cart with an invalid resolved token aborts to
`collectPayment` with the missing-payment report and an empty network
trace. -/
theorem processPurchase_guards (st : SessionState) (inp : PurchaseInput) :
    (st.cartItems = [] →
      processPurchase st inp = ({ st with stage := .shopping }, Report.emptyCart, [])) ∧
    (st.cartItems ≠ [] →
      tokenInvalid (jsOrStr st.paymentToken st.walletToken) = true →
      processPurchase st inp =
        ({ st with stage := .collectPayment }, Report.missingPayment, [])) := by
  constructor
  · intro h
    simp [processPurchase, h]
  · intro h1 h2
    have hlen : ¬ st.cartItems.length = 0 := by
      simpa [List.length_eq_zero] using h1
    simp [processPurchase, hlen, h2]

/-- C4 (witness): concrete instances of both guard branches. -/
theorem processPurchase_guards_witness :
    processPurchase stEmptyCart inpPending =
      ({ stEmptyCart with stage := .shopping }, Report.emptyCart, []) ∧
    processPurchase stNoToken inpPending =
      ({ stNoToken with stage := .collectPayment }, Report.missingPayment, []) := by
  refine ⟨(processPurchase_guards stEmptyCart inpPending).1 rfl,
    (processPurchase_guards stNoToken inpPending).2 (by decide) (by decide)⟩

/-- C7 (counterexample): with a non-empty cart, a valid token in session
state, and the sentinel `"token_placeholder"` in the wallet slot, the
checkout handler transitions to `collectPayment`, not `completePurchase`:
the claimed disjunction over the two token locations fails because the
truthy wallet value shadows the session token. -/
theorem startCheckout_shadowed_session_token :
    hasValidToken stShadow.paymentToken = true ∧
    stShadow.cartItems ≠ [] ∧
    (startCheckout stShadow).1.stage = Stage.collectPayment ∧
    ¬ (startCheckout stShadow).1.stage = Stage.completePurchase := by
  decide

/-- C7 (amended): for a non-empty cart, `startCheckout` resolves one
candidate token — the wallet-store value when truthy, the session token
otherwise — and transitions directly to `completePurchase` when that
resolved candidate is valid, to `collectPayment` when it is not. -/
theorem startCheckout_resolved_token (st : SessionState)
    (h : st.cartItems ≠ []) :
    (hasValidToken (resolvedToken st) = true →
      startCheckout st = ({ st with stage := .completePurchase },
        CheckoutReport.withPayment st.cartItems.length st.total)) ∧
    (hasValidToken (resolvedToken st) = false →
      startCheckout st = ({ st with stage := .collectPayment },
        CheckoutReport.needPayment st.cartItems.length st.total)) := by
  have hlen : ¬ st.cartItems.length = 0 := by
    simpa [List.length_eq_zero] using h
  constructor
  · intro hv
    simp [startCheckout, hlen, resolvedToken] at hv ⊢
    simp [hv]
  · intro hv
    simp [startCheckout, hlen, resolvedToken] at hv ⊢
    simp [hv]

/-- C7 (amended, witness): a shopper with a valid session token and an
empty wallet slot goes directly to `completePurchase`. -/
theorem startCheckout_resolved_token_witness :
    hasValidToken (resolvedToken stShopper) = true ∧
    startCheckout stShopper = ({ stShopper with stage := .completePurchase },
      CheckoutReport.withPayment stShopper.cartItems.length stShopper.total) := by
  exact ⟨by decide,
    (startCheckout_resolved_token stShopper (by decide)).1 (by decide)⟩

/-- C9: invoking the gated payment-collection command while the stage is
`collectPayment` and a valid token is already resolvable short-circuits:
no widget is shown, the stored tokens are untouched (the resolved token
after the call is the existing one), the stage advances to
`completePurchase`, and any repeated invocation — gated or not — changes
nothing further. -/
theorem collectPayment_idempotent (st : SessionState)
    (h1 : st.stage = Stage.collectPayment)
    (h2 : hasValidToken (resolvedToken st) = true) :
    collectPaymentCommand st =
      ({ st with stage := Stage.completePurchase }, some CollectOutcome.alreadyExists) ∧
    ({ st with stage := Stage.completePurchase }).walletToken = st.walletToken ∧
    ({ st with stage := Stage.completePurchase }).paymentToken = st.paymentToken ∧
    resolvedToken { st with stage := Stage.completePurchase } = resolvedToken st ∧
    collectPaymentInfo { st with stage := Stage.completePurchase } =
      ({ st with stage := Stage.completePurchase }, CollectOutcome.alreadyExists) ∧
    collectPaymentCommand { st with stage := Stage.completePurchase } =
      ({ st with stage := Stage.completePurchase }, none) := by
  have h2' : hasValidToken (jsOrStr st.walletToken st.paymentToken) = true := h2
  refine ⟨?_, rfl, rfl, rfl, ?_, ?_⟩
  · simp [collectPaymentCommand, h1, collectPaymentInfo, h2']
  · simp [collectPaymentInfo, h2']
  · simp [collectPaymentCommand]

/-- C9 (witness): concrete instance of `collectPayment_idempotent`. -/
theorem collectPayment_idempotent_witness :
    collectPaymentCommand stCollect =
      ({ stCollect with stage := Stage.completePurchase },
        some CollectOutcome.alreadyExists) ∧
    collectPaymentCommand { stCollect with stage := Stage.completePurchase } =
      ({ stCollect with stage := Stage.completePurchase }, none) := by
  have h := collectPayment_idempotent stCollect rfl (by decide)
  exact ⟨h.1, h.2.2.2.2.2⟩

/-- C1: with a non-empty cart, a valid resolved token, and a status oracle
that always answers `pending`, the handler polls exactly `maxAttempts = 120`
times (at `pollIntervalMs = 5000` ms spacing), preserves the cart and both
token slots, resets the stage to `shopping`, and reports the synthesized
timeout through the catch path — but the classifier assigns that error the
type `unknown`, not `timeout`, because the thrown text "Purchase timed out
after 10 minutes" does not contain the substring "timeout". -/
theorem processPurchase_allPending_timeout (st : SessionState)
    (inp : PurchaseInput) (pid : String)
    (_hstage : st.stage = Stage.completePurchase)
    (hcart : st.cartItems ≠ [])
    (htok : tokenInvalid (jsOrStr st.paymentToken st.walletToken) = false)
    (hsub : inp.submit = SubmitResponse.ok pid)
    (hp : ∀ k, ∃ d, inp.polls k = PollResponse.ok d ∧ d.status = "pending") :
    (processPurchase st inp).1.cartItems = st.cartItems ∧
    (processPurchase st inp).1.paymentToken = st.paymentToken ∧
    (processPurchase st inp).1.walletToken = st.walletToken ∧
    (processPurchase st inp).1.stage = Stage.shopping ∧
    (processPurchase st inp).2.1 =
      Report.caught (classifyError (rawFromThrown timeoutMsg)) ∧
    (classifyError (rawFromThrown timeoutMsg)).type = ErrorType.unknown ∧
    ¬ (classifyError (rawFromThrown timeoutMsg)).type = ErrorType.timeout ∧
    (processPurchase st inp).2.2 =
      NetEvent.submitOrder :: pollEvents 0 maxAttempts ∧
    (processPurchase st inp).2.2.countP (fun e => isPollEvent e) = maxAttempts ∧
    maxAttempts = 120 ∧ pollIntervalMs = 5000 := by
  have hnt : ∀ k, nonTerminal (inp.polls k) := by
    intro k
    obtain ⟨d, hk, hs⟩ := hp k
    exact ⟨d, hk, by rw [hs]; decide, by rw [hs]; decide⟩
  obtain ⟨ups2, hL⟩ := pollLoop_nonTerminal inp.polls hnt maxAttempts 0 ""
    [initLine pid] [NetEvent.submitOrder]
  have hlen : ¬ st.cartItems.length = 0 := by
    simpa [List.length_eq_zero] using hcart
  have hrun : processPurchase st inp =
      catchWith st timeoutMsg (NetEvent.submitOrder :: pollEvents 0 maxAttempts) := by
    simp only [processPurchase, if_neg hlen, htok, Bool.false_eq_true, if_false, hsub]
    rw [hL]
    simp
  refine ⟨?_, ?_, ?_, ?_, ?_, by decide, by decide, ?_, ?_, rfl, rfl⟩
  · simp [hrun, catchWith]
  · simp [hrun, catchWith]
  · simp [hrun, catchWith]
  · simp [hrun, catchWith]
  · simp [hrun, catchWith]
  · simp [hrun, catchWith]
  · rw [hrun]
    simp only [catchWith]
    rw [List.countP_cons, countP_pollEvents]
    simp [isPollEvent]

/-- C1 (witness): the always-pending oracle on the base state. -/
theorem processPurchase_allPending_timeout_witness :
    (processPurchase stBase inpPending).1.cartItems = stBase.cartItems ∧
    (processPurchase stBase inpPending).1.paymentToken = stBase.paymentToken ∧
    (processPurchase stBase inpPending).1.walletToken = stBase.walletToken ∧
    (processPurchase stBase inpPending).1.stage = Stage.shopping ∧
    (processPurchase stBase inpPending).2.1 =
      Report.caught (classifyError (rawFromThrown timeoutMsg)) ∧
    (classifyError (rawFromThrown timeoutMsg)).type = ErrorType.unknown ∧
    ¬ (classifyError (rawFromThrown timeoutMsg)).type = ErrorType.timeout ∧
    (processPurchase stBase inpPending).2.2 =
      NetEvent.submitOrder :: pollEvents 0 maxAttempts ∧
    (processPurchase stBase inpPending).2.2.countP (fun e => isPollEvent e) = maxAttempts ∧
    maxAttempts = 120 ∧ pollIntervalMs = 5000 :=
  processPurchase_allPending_timeout stBase inpPending "p1" rfl (by decide)
    (by decide) rfl (fun _ => ⟨pendingData, rfl, rfl⟩)

/-- C2: whenever the polling loop reaches a `completed` status, the handler
clears the cart, the session payment token and the stored wallet token,
stores the result payload, resets the stage to `shopping`, and returns a
success report carrying the accumulated updates, the order id (the payload
`store_order_id` or the `NEKUDA-` fallback), the fixed user id, the cart
total, and the per-item quantity-and-name summary; the rendered report ends
with the cleared-cart notice. -/
theorem processPurchase_completed_clears (st : SessionState)
    (inp : PurchaseInput) (pid : String) (n : Nat) (ups : List String)
    (d : StatusData) (evs : List NetEvent)
    (hcart : st.cartItems ≠ [])
    (htok : tokenInvalid (jsOrStr st.paymentToken st.walletToken) = false)
    (hsub : inp.submit = SubmitResponse.ok pid)
    (hloop : pollLoop inp.polls maxAttempts 0 "" [initLine pid]
      [NetEvent.submitOrder] = (LoopOutcome.completedAt n ups d, evs)) :
    processPurchase st inp =
      ({ st with cartItems := [], paymentToken := none, walletToken := none,
                 lastPurchaseResult := some (d.result.getD { store_order_id := none }),
                 stage := Stage.shopping },
       Report.success ups
         (jsGetStr (d.result.getD { store_order_id := none }).store_order_id
           inp.fallbackOrderId)
         fixedUserId st.total (itemsSummary st.cartItems),
       evs) ∧
    ∃ s, renderReport (processPurchase st inp).2.1 = s ++ clearedCartNotice := by
  have hlen : ¬ st.cartItems.length = 0 := by
    simpa [List.length_eq_zero] using hcart
  have hrun : processPurchase st inp =
      ({ st with cartItems := [], paymentToken := none, walletToken := none,
                 lastPurchaseResult := some (d.result.getD { store_order_id := none }),
                 stage := Stage.shopping },
       Report.success ups
         (jsGetStr (d.result.getD { store_order_id := none }).store_order_id
           inp.fallbackOrderId)
         fixedUserId st.total (itemsSummary st.cartItems),
       evs) := by
    simp only [processPurchase, if_neg hlen, htok, Bool.false_eq_true, if_false, hsub]
    rw [hloop]
  refine ⟨hrun, ?_⟩
  rw [hrun]
  exact ⟨_, rfl⟩

/-- C2 (witness): a first poll answering `completed` with a payload order
id clears everything and reports success. -/
theorem processPurchase_completed_clears_witness :
    processPurchase stBase inpCompleted =
      ({ stBase with cartItems := [], paymentToken := none, walletToken := none,
                     lastPurchaseResult :=
                       some (completedData.result.getD { store_order_id := none }),
                     stage := Stage.shopping },
       Report.success [initLine "p1", progressLine "done"]
         (jsGetStr (completedData.result.getD { store_order_id := none }).store_order_id
           inpCompleted.fallbackOrderId)
         fixedUserId stBase.total (itemsSummary stBase.cartItems),
       [NetEvent.submitOrder, NetEvent.pollStatus 1]) ∧
    ∃ s, renderReport (processPurchase stBase inpCompleted).2.1 = s ++ clearedCartNotice :=
  processPurchase_completed_clears stBase inpCompleted "p1" 1
    [initLine "p1", progressLine "done"] completedData
    [NetEvent.submitOrder, NetEvent.pollStatus 1]
    (by decide) (by decide) rfl (by decide)

/-- C3: past the guards, every failure outcome — a terminal `failed` status,
a transport error on a poll, a submission error, or exhausting the poll
ceiling — leaves the cart and both token slots unchanged and resets the
stage to `shopping`; the cart or a token slot changes only when the run
ends in a success report. -/
theorem processPurchase_failure_frame (st : SessionState) (inp : PurchaseInput)
    (hcart : st.cartItems ≠ [])
    (htok : tokenInvalid (jsOrStr st.paymentToken st.walletToken) = false) :
    (∀ ups e, (processPurchase st inp).2.1 = Report.failedReport ups e →
      (processPurchase st inp).1.cartItems = st.cartItems ∧
      (processPurchase st inp).1.paymentToken = st.paymentToken ∧
      (processPurchase st inp).1.walletToken = st.walletToken ∧
      (processPurchase st inp).1.stage = Stage.shopping) ∧
    (∀ e, (processPurchase st inp).2.1 = Report.caught e →
      (processPurchase st inp).1.cartItems = st.cartItems ∧
      (processPurchase st inp).1.paymentToken = st.paymentToken ∧
      (processPurchase st inp).1.walletToken = st.walletToken ∧
      (processPurchase st inp).1.stage = Stage.shopping) ∧
    (((processPurchase st inp).1.cartItems ≠ st.cartItems ∨
      (processPurchase st inp).1.paymentToken ≠ st.paymentToken ∨
      (processPurchase st inp).1.walletToken ≠ st.walletToken) →
      ∃ ups oid uid tot summ,
        (processPurchase st inp).2.1 = Report.success ups oid uid tot summ) := by
  have hlen : ¬ st.cartItems.length = 0 := by
    simpa [List.length_eq_zero] using hcart
  have hframe : ∀ msg evs, processPurchase st inp = catchWith st msg evs →
      (∀ ups e, (processPurchase st inp).2.1 = Report.failedReport ups e →
        (processPurchase st inp).1.cartItems = st.cartItems ∧
        (processPurchase st inp).1.paymentToken = st.paymentToken ∧
        (processPurchase st inp).1.walletToken = st.walletToken ∧
        (processPurchase st inp).1.stage = Stage.shopping) ∧
      (∀ e, (processPurchase st inp).2.1 = Report.caught e →
        (processPurchase st inp).1.cartItems = st.cartItems ∧
        (processPurchase st inp).1.paymentToken = st.paymentToken ∧
        (processPurchase st inp).1.walletToken = st.walletToken ∧
        (processPurchase st inp).1.stage = Stage.shopping) ∧
      (((processPurchase st inp).1.cartItems ≠ st.cartItems ∨
        (processPurchase st inp).1.paymentToken ≠ st.paymentToken ∨
        (processPurchase st inp).1.walletToken ≠ st.walletToken) →
        ∃ ups oid uid tot summ,
          (processPurchase st inp).2.1 = Report.success ups oid uid tot summ) := by
    intro msg evs h
    refine ⟨?_, ?_, ?_⟩
    · intro ups e hr
      rw [h] at hr
      simp [catchWith] at hr
    · intro e _
      rw [h]
      simp [catchWith]
    · intro hch
      rw [h] at hch
      simp [catchWith] at hch
  cases hs : inp.submit with
  | thrown msg =>
      exact hframe msg [NetEvent.submitOrder] (by
        simp only [processPurchase, if_neg hlen, htok, Bool.false_eq_true, if_false, hs])
  | httpError detail =>
      exact hframe (jsGetStr detail "Checkout failed") [NetEvent.submitOrder] (by
        simp only [processPurchase, if_neg hlen, htok, Bool.false_eq_true, if_false, hs])
  | ok pid =>
      rcases hl : pollLoop inp.polls maxAttempts 0 "" [initLine pid]
        [NetEvent.submitOrder] with ⟨out, evs⟩
      cases out with
      | transportErrorAt a u =>
          exact hframe transportErrMsg evs (by
            simp only [processPurchase, if_neg hlen, htok, Bool.false_eq_true, if_false, hs]
            rw [hl])
      | timedOut a u =>
          exact hframe timeoutMsg evs (by
            simp only [processPurchase, if_neg hlen, htok, Bool.false_eq_true, if_false, hs]
            rw [hl])
      | failedAt a u d =>
          have hrun : processPurchase st inp =
              ({ st with lastError := some (classifyError (statusRaw d)),
                         stage := Stage.shopping },
               Report.failedReport u (classifyError (statusRaw d)), evs) := by
            simp only [processPurchase, if_neg hlen, htok, Bool.false_eq_true, if_false, hs]
            rw [hl]
          refine ⟨?_, ?_, ?_⟩
          · intro ups e _
            rw [hrun]
            simp
          · intro e hr
            rw [hrun] at hr
            simp at hr
          · intro hch
            rw [hrun] at hch
            simp at hch
      | completedAt a u d =>
          have hrun : processPurchase st inp =
              ({ st with cartItems := [], paymentToken := none, walletToken := none,
                         lastPurchaseResult :=
                           some (d.result.getD { store_order_id := none }),
                         stage := Stage.shopping },
               Report.success u
                 (jsGetStr (d.result.getD { store_order_id := none }).store_order_id
                   inp.fallbackOrderId)
                 fixedUserId st.total (itemsSummary st.cartItems), evs) := by
            simp only [processPurchase, if_neg hlen, htok, Bool.false_eq_true, if_false, hs]
            rw [hl]
          refine ⟨?_, ?_, ?_⟩
          · intro ups e hr
            rw [hrun] at hr
            simp at hr
          · intro e hr
            rw [hrun] at hr
            simp at hr
          · intro _
            refine ⟨u, _, _, _, _, by rw [hrun]⟩

/-- C3 (witness): a first poll answering `failed` preserves the cart and
tokens and resets the stage. -/
theorem processPurchase_failure_frame_witness :
    (∀ ups e, (processPurchase stBase inpFailed).2.1 = Report.failedReport ups e →
      (processPurchase stBase inpFailed).1.cartItems = stBase.cartItems ∧
      (processPurchase stBase inpFailed).1.paymentToken = stBase.paymentToken ∧
      (processPurchase stBase inpFailed).1.walletToken = stBase.walletToken ∧
      (processPurchase stBase inpFailed).1.stage = Stage.shopping) ∧
    (∀ e, (processPurchase stBase inpFailed).2.1 = Report.caught e →
      (processPurchase stBase inpFailed).1.cartItems = stBase.cartItems ∧
      (processPurchase stBase inpFailed).1.paymentToken = stBase.paymentToken ∧
      (processPurchase stBase inpFailed).1.walletToken = stBase.walletToken ∧
      (processPurchase stBase inpFailed).1.stage = Stage.shopping) ∧
    (((processPurchase stBase inpFailed).1.cartItems ≠ stBase.cartItems ∨
      (processPurchase stBase inpFailed).1.paymentToken ≠ stBase.paymentToken ∨
      (processPurchase stBase inpFailed).1.walletToken ≠ stBase.walletToken) →
      ∃ ups oid uid tot summ,
        (processPurchase stBase inpFailed).2.1 = Report.success ups oid uid tot summ) :=
  processPurchase_failure_frame stBase inpFailed (by decide) (by decide)

/-! Deduplication machinery for the status-update history. -/

theorem head?_append_left {l1 l2 : List Char} {c : Char}
    (h : l1.head? = some c) : (l1 ++ l2).head? = some c := by
  cases l1 with
  | nil => simp at h
  | cons a as => simpa using h

theorem progressLine_inj {a b : String} (h : progressLine a = progressLine b) :
    a = b := by
  have hd := congrArg String.data h
  simp only [progressLine, String.data_append] at hd
  exact String.ext (List.append_cancel_left hd)

theorem head?_progressLine (m : String) :
    (progressLine m).data.head? = some '📍' := by
  have h : (progressLine m).data = ("📍 " : String).data ++ m.data := by
    simp [progressLine, String.data_append]
  rw [h]
  exact head?_append_left rfl

theorem head?_initLine (pid : String) :
    (initLine pid).data.head? = some '🔄' := by
  have h : (initLine pid).data =
      ("🔄 Purchase initiated with ID: " : String).data ++ pid.data := by
    simp [initLine, String.data_append]
  rw [h]
  exact head?_append_left rfl

/-- Invariant of the deduplication state: the history has no two adjacent
equal entries, and either its last entry is the surfaced line of
`lastStatus`, or no entry of the history is a surfaced progress line. -/
def DedupInv (last : String) (ups : List String) : Prop :=
  List.Chain' (· ≠ ·) ups ∧
  ((ups.getLast? = some (progressLine last) ∧ last ≠ "") ∨
    ∀ x ∈ ups, x.data.head? ≠ some '📍')

theorem recordMessage_inv (last : String) (ups : List String)
    (mo : Option String) (h : DedupInv last ups) :
    DedupInv (recordMessage last ups mo).1 (recordMessage last ups mo).2 := by
  cases mo with
  | none => simpa [recordMessage] using h
  | some m =>
      by_cases h1 : m = ""
      · simpa [recordMessage, h1] using h
      · by_cases h2 : m = last
        · simpa [recordMessage, h1, h2] using h
        · obtain ⟨hch, hrest⟩ := h
          simp only [recordMessage, if_neg h1, if_neg h2]
          refine ⟨?_, Or.inl ⟨List.getLast?_concat ups, h1⟩⟩
          refine List.Chain'.append hch (List.chain'_singleton _) ?_
          intro x hx y hy
          simp only [List.head?_cons, Option.mem_def, Option.some.injEq] at hy
          subst hy
          rcases hrest with ⟨hlast, _⟩ | hnop
          · rw [hlast] at hx
            simp only [Option.mem_def, Option.some.injEq] at hx
            subst hx
            intro hc
            exact h2 (progressLine_inj hc).symm
          · have hxmem : x ∈ ups := List.mem_of_mem_getLast? hx
            intro hc
            exact hnop x hxmem (by rw [hc]; exact head?_progressLine m)

theorem dedupInv_init (pid : String) : DedupInv "" [initLine pid] := by
  refine ⟨List.chain'_singleton _, Or.inr ?_⟩
  intro x hx
  simp only [List.mem_singleton] at hx
  subst hx
  rw [head?_initLine]
  decide

/-- Whatever outcome the loop reaches, the history it carries never holds
two adjacent equal entries. -/
theorem pollLoop_dedup (polls : Nat → PollResponse) :
    ∀ fuel a last ups evs, DedupInv last ups →
      List.Chain' (· ≠ ·) (updatesOf (pollLoop polls fuel a last ups evs).1) := by
  intro fuel
  induction fuel with
  | zero =>
      intro a last ups evs h
      simpa [pollLoop, updatesOf] using h.1
  | succ f ih =>
      intro a last ups evs h
      cases hp : polls a with
      | transportError =>
          simp only [pollLoop, hp]
          simpa [updatesOf] using h.1
      | ok d =>
          have hinv := recordMessage_inv last ups d.message h
          simp only [pollLoop, hp]
          by_cases hc : d.status = "completed"
          · simp only [if_pos hc, updatesOf]
            exact hinv.1
          · by_cases hf : d.status = "failed"
            · simp only [if_neg hc, if_pos hf, updatesOf]
              exact hinv.1
            · simp only [if_neg hc, if_neg hf]
              exact ih (a + 1) _ _ _ hinv

/-- C8 (amended): progress messages are surfaced only when they differ from
the last surfaced message (the history in any success or terminal-failure
report has no two adjacent equal entries), and the history is rendered into
terminal-`failed` reports; reports produced through the exception path
(transport error, submission error, poll-ceiling timeout) render only the
classified error message, without the history. -/
theorem processPurchase_history_dedup (st : SessionState) (inp : PurchaseInput)
    (pid : String)
    (hcart : st.cartItems ≠ [])
    (htok : tokenInvalid (jsOrStr st.paymentToken st.walletToken) = false)
    (hsub : inp.submit = SubmitResponse.ok pid) :
    (∀ ups oid uid tot summ,
      (processPurchase st inp).2.1 = Report.success ups oid uid tot summ →
      List.Chain' (· ≠ ·) ups) ∧
    (∀ ups e, (processPurchase st inp).2.1 = Report.failedReport ups e →
      List.Chain' (· ≠ ·) ups ∧
      renderReport (processPurchase st inp).2.1 =
        (if ups.length > 0 then String.intercalate "\n" ups ++ "\n\n" else "") ++
          getErrorMessage e) ∧
    (∀ e, (processPurchase st inp).2.1 = Report.caught e →
      renderReport (processPurchase st inp).2.1 = getErrorMessage e) := by
  have hlen : ¬ st.cartItems.length = 0 := by
    simpa [List.length_eq_zero] using hcart
  rcases hl : pollLoop inp.polls maxAttempts 0 "" [initLine pid]
    [NetEvent.submitOrder] with ⟨out, evs⟩
  have hchain := pollLoop_dedup inp.polls maxAttempts 0 "" [initLine pid]
    [NetEvent.submitOrder] (dedupInv_init pid)
  rw [hl] at hchain
  cases out with
  | completedAt a u d =>
      have hrun : processPurchase st inp =
          ({ st with cartItems := [], paymentToken := none, walletToken := none,
                     lastPurchaseResult := some (d.result.getD { store_order_id := none }),
                     stage := Stage.shopping },
           Report.success u
             (jsGetStr (d.result.getD { store_order_id := none }).store_order_id
               inp.fallbackOrderId)
             fixedUserId st.total (itemsSummary st.cartItems), evs) := by
        simp only [processPurchase, if_neg hlen, htok, Bool.false_eq_true, if_false, hsub]
        rw [hl]
      refine ⟨?_, ?_, ?_⟩
      · intro ups oid uid tot summ hr
        rw [hrun] at hr
        simp only [Report.success.injEq] at hr
        rw [← hr.1]
        exact hchain
      · intro ups e hr
        rw [hrun] at hr
        simp at hr
      · intro e hr
        rw [hrun] at hr
        simp at hr
  | failedAt a u d =>
      have hrun : processPurchase st inp =
          ({ st with lastError := some (classifyError (statusRaw d)),
                     stage := Stage.shopping },
           Report.failedReport u (classifyError (statusRaw d)), evs) := by
        simp only [processPurchase, if_neg hlen, htok, Bool.false_eq_true, if_false, hsub]
        rw [hl]
      refine ⟨?_, ?_, ?_⟩
      · intro ups oid uid tot summ hr
        rw [hrun] at hr
        simp at hr
      · intro ups e hr
        rw [hrun] at hr
        simp only [Report.failedReport.injEq] at hr
        constructor
        · rw [← hr.1]
          exact hchain
        · rw [hrun, ← hr.1, ← hr.2]
          rfl
      · intro e hr
        rw [hrun] at hr
        simp at hr
  | transportErrorAt a u =>
      have hrun : processPurchase st inp =
          catchWith st transportErrMsg evs := by
        simp only [processPurchase, if_neg hlen, htok, Bool.false_eq_true, if_false, hsub]
        rw [hl]
      refine ⟨?_, ?_, ?_⟩
      · intro ups oid uid tot summ hr
        rw [hrun] at hr
        simp [catchWith] at hr
      · intro ups e hr
        rw [hrun] at hr
        simp [catchWith] at hr
      · intro e hr
        rw [hrun] at hr
        simp only [catchWith, Report.caught.injEq] at hr
        rw [hrun, ← hr]
        rfl
  | timedOut a u =>
      have hrun : processPurchase st inp =
          catchWith st timeoutMsg evs := by
        simp only [processPurchase, if_neg hlen, htok, Bool.false_eq_true, if_false, hsub]
        rw [hl]
      refine ⟨?_, ?_, ?_⟩
      · intro ups oid uid tot summ hr
        rw [hrun] at hr
        simp [catchWith] at hr
      · intro ups e hr
        rw [hrun] at hr
        simp [catchWith] at hr
      · intro e hr
        rw [hrun] at hr
        simp only [catchWith, Report.caught.injEq] at hr
        rw [hrun, ← hr]
        rfl

/-- C8 (amended, witness): instance on the completed run. -/
theorem processPurchase_history_dedup_witness :
    (∀ ups oid uid tot summ,
      (processPurchase stBase inpCompleted).2.1 = Report.success ups oid uid tot summ →
      List.Chain' (· ≠ ·) ups) ∧
    (∀ ups e, (processPurchase stBase inpCompleted).2.1 = Report.failedReport ups e →
      List.Chain' (· ≠ ·) ups ∧
      renderReport (processPurchase stBase inpCompleted).2.1 =
        (if ups.length > 0 then String.intercalate "\n" ups ++ "\n\n" else "") ++
          getErrorMessage e) ∧
    (∀ e, (processPurchase stBase inpCompleted).2.1 = Report.caught e →
      renderReport (processPurchase stBase inpCompleted).2.1 = getErrorMessage e) :=
  processPurchase_history_dedup stBase inpCompleted "p1" (by decide) (by decide) rfl

set_option maxRecDepth 4000 in
/-- C8 (counterexample): under an always-pending oracle whose polls carry
the progress message "working on it", the loop surfaces that message into
the history, yet the timed-out run reports through the catch path and the
returned text does not contain it: the history is not included in every
final report. -/
theorem processPurchase_history_dropped_on_timeout :
    (pollLoop (fun _ => PollResponse.ok pendingMsgData) maxAttempts 0 ""
        [initLine "p1"] [NetEvent.submitOrder]).1 =
      LoopOutcome.timedOut maxAttempts [initLine "p1", progressLine "working on it"] ∧
    (processPurchase stBase inpPendingMsg).2.1 =
      Report.caught (classifyError (rawFromThrown timeoutMsg)) ∧
    strIncludes (renderReport (processPurchase stBase inpPendingMsg).2.1)
      "working on it" = false := by
  refine ⟨by decide, by decide, by decide⟩

end Nekuda
